import Mathlib

/-!
Sealer docker provider: container.go.

A shallow embedding of `pkg/infra/container/client/docker/container.go`.

The container engine is reached through `Provider.DockerClient`. Its answers may
depend on everything requested before, so the engine is a state `σ` and every
client method is a function from the state to its Go results and the next state.
A Go result pair `(v, err)` is a Lean pair whose second component is
`Option GoError`; `none` is Go's `nil` error. Every method call that a function
of container.go makes is appended to a call log, in the order of the calls.
The cancellation context `p.Ctx` is passed through unchanged by every method and
is left out.
-/

set_option autoImplicit false

namespace Sealer

/-- A Go `error` value that is not nil. -/
structure GoError where
  msg : String
deriving DecidableEq, Repr

/-- What a Go function body does: it returns its results, or it stops with a
run-time panic (here only the nil pointer dereference). A Go pointer `*T` that
container.go reads through is an `Option T`: `none` is the nil pointer. -/
inductive Outcome (α : Type) where
  | returned (a : α)
  | panicked
deriving DecidableEq, Repr

namespace mount

/-- The docker API type `mount.Mount`. container.go never reads its fields. -/
structure Mount where
  MountType : String
  Source : String
  Target : String
  ReadOnly : Bool
deriving DecidableEq, Repr

end mount

namespace network

/-- The docker API type `network.EndpointSettings`, with the two fields that
container.go reads or writes. -/
structure EndpointSettings where
  NetworkID : String
  IPAddress : String
deriving DecidableEq, Repr

/-- The docker API type `network.NetworkingConfig`. `EndpointsConfig` is a
`map[string]*network.EndpointSettings` (container.go line 119), written as the
list of its entries. -/
structure NetworkingConfig where
  EndpointsConfig : List (String × EndpointSettings)
deriving DecidableEq, Repr

end network

namespace container

/-- The docker API type `container.Config`, with the fields container.go uses. -/
structure Config where
  Image : String
  Tty : Bool
  Labels : List (String × String)
  Hostname : String
  AttachStdin : Bool
  AttachStdout : Bool
  AttachStderr : Bool
deriving DecidableEq, Repr

/-- The docker API type `container.RestartPolicy`. -/
structure RestartPolicy where
  Name : String
  MaximumRetryCount : Int
deriving DecidableEq, Repr

/-- The docker API type `container.HostConfig`, with the fields container.go
sets. `Init` is a `*bool`: `none` is the nil pointer. `UsernsMode` and
`CgroupnsMode` are string types. -/
structure HostConfig where
  UsernsMode : String
  SecurityOpt : List String
  RestartPolicy : RestartPolicy
  Init : Option Bool
  CgroupnsMode : String
  Privileged : Bool
  Mounts : List mount.Mount
deriving DecidableEq, Repr

/-- The docker API type `container.ContainerCreateCreatedBody`. -/
structure ContainerCreateCreatedBody where
  ID : String
deriving DecidableEq, Repr

end container

namespace types

/-- The docker API type `types.Info`, with the fields container.go reads.
`MemoryLimit`, `PidsLimit` and `CPUShares` are Go `bool`s (the comment at
container.go lines 197-198 calls their zero value "false"), `NCPU` is an `int`. -/
structure Info where
  CgroupDriver : String
  CgroupVersion : String
  Driver : String
  SecurityOptions : List String
  MemoryLimit : Bool
  PidsLimit : Bool
  CPUShares : Bool
  NCPU : Int
deriving DecidableEq, Repr

/-- A Go `map[string]*network.EndpointSettings`, written as the list of its
entries: a key with the pointer stored under it, which may be nil. The nil map
is the empty list. -/
abbrev Networks := List (String × Option network.EndpointSettings)

/-- Go's `m[key]` on a `map[string]*network.EndpointSettings`: the stored
pointer, or the nil pointer (`none`) when the key is not in the map. -/
def Networks.index (m : Networks) (key : String) : Option network.EndpointSettings :=
  (m.lookup key).getD none

/-- The docker API type `types.SummaryNetworkSettings`. -/
structure SummaryNetworkSettings where
  Networks : Networks
deriving DecidableEq, Repr

/-- The docker API type `types.Container`, an entry of a container listing.
`NetworkSettings` is a `*SummaryNetworkSettings`. -/
structure Container where
  ID : String
  NetworkSettings : Option SummaryNetworkSettings
deriving DecidableEq, Repr

/-- The docker API type `types.ContainerState`. -/
structure ContainerState where
  Status : String
deriving DecidableEq, Repr

/-- The docker API type `types.NetworkSettings`. -/
structure NetworkSettings where
  Networks : Networks
deriving DecidableEq, Repr

/-- The docker API type `types.ContainerJSONBase`, with the fields container.go
reads. `State` is a `*ContainerState`. -/
structure ContainerJSONBase where
  Name : String
  State : Option ContainerState
deriving DecidableEq, Repr

/-- The docker API type `types.ContainerJSON`, the answer to an inspect call. It
embeds a `*ContainerJSONBase`, through which `resp.Name` and `resp.State` are
read; `Config` is a `*container.Config` and `NetworkSettings` a
`*NetworkSettings`. -/
structure ContainerJSON where
  ContainerJSONBase : Option ContainerJSONBase
  Config : Option container.Config
  NetworkSettings : Option NetworkSettings
deriving DecidableEq, Repr

/-- The docker API type `types.ContainerRemoveOptions`, with the fields
container.go sets. -/
structure ContainerRemoveOptions where
  RemoveVolumes : Bool
  Force : Bool
deriving DecidableEq, Repr

end types

namespace client

/-- The request type `client.CreateOptsForContainer`. `Mount` is a Go slice:
`none` is the nil slice. -/
structure CreateOptsForContainer where
  ImageName : String
  NetworkName : String
  ContainerName : String
  ContainerHostName : String
  ContainerLabel : List (String × String)
  Mount : Option (List mount.Mount)
deriving DecidableEq, Repr

/-- The record type `client.Container`. -/
structure Container where
  ContainerName : String
  ContainerIP : String
  ContainerHostName : String
  ContainerLabel : List (String × String)
  Status : String
deriving DecidableEq, Repr

/-- The record type `client.DockerInfo`. Its fields have the types of the
`types.Info` fields assigned to them. -/
structure DockerInfo where
  CgroupDriver : String
  CgroupVersion : String
  StorageDriver : String
  MemoryLimit : Bool
  PidsLimit : Bool
  CPUShares : Bool
  CPUNumber : Int
  SecurityOptions : List String
deriving DecidableEq, Repr

end client

namespace docker

/-- The constant `CgroupNoneDriver`. -/
def CgroupNoneDriver : String := "none"

/-- One method call made by a function of container.go. -/
inductive Call where
  | PrepareNetworkResource (networkName : String)
  | PullImage (imageName : String)
  | Info
  | ContainerCreate (config : container.Config) (hostConfig : container.HostConfig)
      (networkingConfig : network.NetworkingConfig) (containerName : String)
  | ContainerStart (containerID : String)
  | ContainerInspect (containerID : String)
  | ContainerList
  | ContainerRemove (containerID : String) (options : types.ContainerRemoveOptions)
deriving DecidableEq, Repr

/-- The methods of the docker client `*dc.Client` that container.go calls, over
an engine with states `σ`. The platform argument of `ContainerCreate` is always
nil in container.go and is left out. -/
structure Client (σ : Type) where
  Info : σ → (types.Info × Option GoError) × σ
  ContainerCreate : container.Config → container.HostConfig → network.NetworkingConfig →
    String → σ → (container.ContainerCreateCreatedBody × Option GoError) × σ
  ContainerStart : String → σ → Option GoError × σ
  ContainerInspect : String → σ → (types.ContainerJSON × Option GoError) × σ
  ContainerList : σ → (List types.Container × Option GoError) × σ
  ContainerRemove : String → types.ContainerRemoveOptions → σ → Option GoError × σ

/-- The type `Provider` of provider.go. The methods `PrepareNetworkResource` and
`PullImage` and the function `DefaultMounts` are declared in other files of the
package; they are parameters here. -/
structure Provider (σ : Type) where
  DockerClient : Client σ
  PrepareNetworkResource : String → σ → (String × Option GoError) × σ
  PullImage : String → σ → (String × Option GoError) × σ
  DefaultMounts : List mount.Mount

/-- The engine state together with the log of the calls made so far. -/
structure World (σ : Type) where
  st : σ
  calls : List Call

/-- Record a call and move to the engine state it leaves. -/
def World.step {σ : Type} (w : World σ) (c : Call) (s : σ) : World σ :=
  { st := s, calls := w.calls ++ [c] }

/-- The function `GetServerInfo` (container.go lines 189-212). `dInfo` starts as
the zero value of `client.DockerInfo`. -/
def GetServerInfo {σ : Type} (p : Provider σ) (w : World σ) :
    (Option client.DockerInfo × Option GoError) × World σ :=
  match p.DockerClient.Info w.st with
  | ((sysInfo, err), s) =>
    let w1 := w.step Call.Info s
    match err with
    | some e => ((none, some e), w1)
    | none =>
      let dInfo : client.DockerInfo :=
        { CgroupDriver := "", CgroupVersion := "", StorageDriver := "",
          MemoryLimit := false, PidsLimit := false, CPUShares := false,
          CPUNumber := 0, SecurityOptions := [] }
      let dInfo := { dInfo with CgroupVersion := sysInfo.CgroupVersion }
      let dInfo := { dInfo with StorageDriver := sysInfo.Driver }
      let dInfo := { dInfo with SecurityOptions := sysInfo.SecurityOptions }
      let dInfo := { dInfo with CgroupDriver := sysInfo.CgroupDriver }
      if sysInfo.CgroupDriver = CgroupNoneDriver then
        ((some dInfo, none), w1)
      else
        let dInfo := { dInfo with MemoryLimit := sysInfo.MemoryLimit }
        let dInfo := { dInfo with PidsLimit := sysInfo.PidsLimit }
        let dInfo := { dInfo with CPUShares := sysInfo.CPUShares }
        let dInfo := { dInfo with CPUNumber := sysInfo.NCPU }
        ((some dInfo, none), w1)

/-- The loop of `getUserNsMode` (container.go lines 38-44): `usernsMode` starts
as the empty string and is set to "host" at every option equal to
"name=userns". -/
def scanSecurityOptions (securityOptions : List String) : String :=
  securityOptions.foldl (fun usernsMode opt => if opt = "name=userns" then "host" else usernsMode) ""

/-- The function `getUserNsMode` (container.go lines 32-46). -/
def getUserNsMode {σ : Type} (p : Provider σ) (w : World σ) :
    (String × Option GoError) × World σ :=
  match p.DockerClient.Info w.st with
  | ((sysInfo, err), s) =>
    let w1 := w.step Call.Info s
    match err with
    | some e => (("", some e), w1)
    | none => ((scanSecurityOptions sysInfo.SecurityOptions, none), w1)

/-- The function `setContainerMount` (container.go lines 49-55). -/
def setContainerMount {σ : Type} (p : Provider σ) (opts : client.CreateOptsForContainer) :
    List mount.Mount :=
  let mounts := p.DefaultMounts
  match opts.Mount with
  | some ms => mounts ++ ms
  | none => mounts

/-- The `container.Config` literal of `RunContainer` (container.go lines 86-94). -/
def runConfig (opts : client.CreateOptsForContainer) : container.Config :=
  { Image := opts.ImageName
    Tty := true
    Labels := opts.ContainerLabel
    Hostname := opts.ContainerHostName
    AttachStdin := false
    AttachStdout := false
    AttachStderr := false }

/-- The `container.HostConfig` literal of `RunContainer` (container.go lines
96-116), from the results `mod` of `getUserNsMode` and `mounts` of
`setContainerMount`. -/
def runHostConfig (mod : String) (mounts : List mount.Mount) : container.HostConfig :=
  let falseOpts := false
  { UsernsMode := mod
    SecurityOpt := ["seccomp=unconfined", "apparmor=unconfined"]
    RestartPolicy := { Name := "on-failure", MaximumRetryCount := 1 }
    Init := some falseOpts
    CgroupnsMode := "host"
    Privileged := true
    Mounts := mounts }

/-- The `network.NetworkingConfig` literal of `RunContainer` (container.go lines
118-123). The fields of the endpoint other than `NetworkID` keep their zero
value. -/
def runNetworkingConfig (opts : client.CreateOptsForContainer) (networkID : String) :
    network.NetworkingConfig :=
  { EndpointsConfig := [(opts.NetworkName, { NetworkID := networkID, IPAddress := "" })] }

/-- The function `RunContainer` (container.go lines 58-137). -/
def RunContainer {σ : Type} (p : Provider σ) (opts : client.CreateOptsForContainer)
    (w : World σ) : (String × Option GoError) × World σ :=
  match p.PrepareNetworkResource opts.NetworkName w.st with
  | ((networkID, err), s1) =>
    let w1 := w.step (Call.PrepareNetworkResource opts.NetworkName) s1
    match err with
    | some e => (("", some e), w1)
    | none =>
      match p.PullImage opts.ImageName w1.st with
      | ((_, err), s2) =>
        let w2 := w1.step (Call.PullImage opts.ImageName) s2
        match err with
        | some e => (("", some e), w2)
        | none =>
          match getUserNsMode p w2 with
          | ((mod, _), w3) =>
            let mounts := setContainerMount p opts
            let config := runConfig opts
            let hostConfig := runHostConfig mod mounts
            let networkingConfig := runNetworkingConfig opts networkID
            match p.DockerClient.ContainerCreate config hostConfig networkingConfig
                opts.ContainerName w3.st with
            | ((resp, err), s4) =>
              let w4 := w3.step
                (Call.ContainerCreate config hostConfig networkingConfig opts.ContainerName) s4
              match err with
              | some e => (("", some e), w4)
              | none =>
                match p.DockerClient.ContainerStart resp.ID w4.st with
                | (err, s5) =>
                  let w5 := w4.step (Call.ContainerStart resp.ID) s5
                  match err with
                  | some e => (("", some e), w5)
                  | none => ((resp.ID, none), w5)

/-- The record literal of `GetContainerInfo` (container.go lines 145-151), its
fields evaluated in the order written. `resp.Name` and `resp.State` go through
the embedded `*ContainerJSONBase`, and
`resp.NetworkSettings.Networks[networkName]` is a pointer, nil when the map has
no entry for `networkName`; reading a field through a nil pointer is a run-time
panic. -/
def inspectRecord (resp : types.ContainerJSON) (networkName : String) :
    Outcome client.Container :=
  match resp.ContainerJSONBase with
  | none => Outcome.panicked
  | some base =>
    match resp.NetworkSettings with
    | none => Outcome.panicked
    | some settings =>
      match settings.Networks.index networkName with
      | none => Outcome.panicked
      | some endpoint =>
        match resp.Config with
        | none => Outcome.panicked
        | some config =>
          match base.State with
          | none => Outcome.panicked
          | some state =>
            Outcome.returned
              { ContainerName := base.Name
                ContainerIP := endpoint.IPAddress
                ContainerHostName := config.Hostname
                ContainerLabel := config.Labels
                Status := state.Status }

/-- The function `GetContainerInfo` (container.go lines 140-152). -/
def GetContainerInfo {σ : Type} (p : Provider σ) (containerID : String) (networkName : String)
    (w : World σ) : Outcome (Option client.Container × Option GoError) × World σ :=
  match p.DockerClient.ContainerInspect containerID w.st with
  | ((resp, err), s) =>
    let w1 := w.step (Call.ContainerInspect containerID) s
    match err with
    | some e => (Outcome.returned (none, some e), w1)
    | none =>
      match inspectRecord resp networkName with
      | Outcome.panicked => (Outcome.panicked, w1)
      | Outcome.returned record => (Outcome.returned (some record, none), w1)

/-- The loop of `GetContainerIDByIP` (container.go lines 163-169): `some id` when
the loop returns `id` from inside, `none` when it runs to its end, and a panic
when it reads through a nil pointer. `item.NetworkSettings` is a pointer read at
line 164. The lookup `net, ok := item.NetworkSettings.Networks[networkName]` has
`ok` true exactly when the map has the key, and `net` is then the pointer stored
under it, read at line 165. -/
def scanContainers (containerIP : String) (networkName : String) :
    List types.Container → Outcome (Option String)
  | [] => Outcome.returned none
  | item :: rest =>
    match item.NetworkSettings with
    | none => Outcome.panicked
    | some settings =>
      match settings.Networks.lookup networkName with
      | some net =>
        match net with
        | none => Outcome.panicked
        | some endpoint =>
          if containerIP = endpoint.IPAddress then Outcome.returned (some item.ID)
          else scanContainers containerIP networkName rest
      | none => scanContainers containerIP networkName rest

/-- The function `GetContainerIDByIP` (container.go lines 155-171). After the
loop `err` is still the nil error of the listing. -/
def GetContainerIDByIP {σ : Type} (p : Provider σ) (containerIP : String) (networkName : String)
    (w : World σ) : Outcome (String × Option GoError) × World σ :=
  match p.DockerClient.ContainerList w.st with
  | ((resp, err), s) =>
    let w1 := w.step Call.ContainerList s
    match err with
    | some e => (Outcome.returned ("", some e), w1)
    | none =>
      match scanContainers containerIP networkName resp with
      | Outcome.panicked => (Outcome.panicked, w1)
      | Outcome.returned (some id) => (Outcome.returned (id, none), w1)
      | Outcome.returned none => (Outcome.returned ("", err), w1)

/-- The function `RmContainer` (container.go lines 174-186). -/
def RmContainer {σ : Type} (p : Provider σ) (containerID : String) (w : World σ) :
    Option GoError × World σ :=
  let options : types.ContainerRemoveOptions := { RemoveVolumes := true, Force := true }
  match p.DockerClient.ContainerRemove containerID options w.st with
  | (err, s) =>
    let w1 := w.step (Call.ContainerRemove containerID options) s
    match err with
    | some e => (some e, w1)
    | none => (none, w1)

/-! ## Properties used by the claims -/

/-- The calls made between the world `w` and the later world `w1`. -/
def issued {σ : Type} (w w1 : World σ) : List Call :=
  w1.calls.drop w.calls.length

/-- The arguments of the `ContainerCreate` calls in a log, in order. -/
def createCalls (cs : List Call) :
    List (container.Config × container.HostConfig × network.NetworkingConfig × String) :=
  cs.filterMap fun c =>
    match c with
    | Call.ContainerCreate config hostConfig networkingConfig containerName =>
      some (config, hostConfig, networkingConfig, containerName)
    | _ => none

/-- The call is a `ContainerCreate`. -/
def Call.isCreate : Call → Bool
  | Call.ContainerCreate _ _ _ _ => true
  | _ => false

/-- The call is a `ContainerStart`. -/
def Call.isStart : Call → Bool
  | Call.ContainerStart _ => true
  | _ => false

/-- The call is a `PullImage`. -/
def Call.isPull : Call → Bool
  | Call.PullImage _ => true
  | _ => false

/-- The call is a `ContainerRemove`. -/
def Call.isRemove : Call → Bool
  | Call.ContainerRemove _ _ => true
  | _ => false

/-- The address of a listed container on the network `networkName`; `none` when
the listing gives it no endpoint on that network. -/
def addressOn (networkName : String) (item : types.Container) : Option String :=
  match item.NetworkSettings with
  | none => none
  | some settings =>
    match settings.Networks.lookup networkName with
    | some (some endpoint) => some endpoint.IPAddress
    | _ => none

/-- A listed container has its `NetworkSettings` set and no nil endpoint pointer
stored under `networkName`. -/
def nilFreeAt (networkName : String) (item : types.Container) : Prop :=
  match item.NetworkSettings with
  | none => False
  | some settings => settings.Networks.lookup networkName ≠ some none

instance (networkName : String) (item : types.Container) :
    Decidable (nilFreeAt networkName item) := by
  unfold nilFreeAt
  split <;> infer_instance

/-- A listed container is the one `GetContainerIDByIP` looks for: it is attached
to `networkName` and its address on that network is `ip`. -/
def attachedAt (ip : String) (networkName : String) (item : types.Container) : Prop :=
  addressOn networkName item = some ip

instance (ip : String) (networkName : String) (item : types.Container) :
    Decidable (attachedAt ip networkName item) :=
  inferInstanceAs (Decidable (addressOn networkName item = some ip))

/-- The caller-supplied mounts of a request: none for the nil slice. -/
def callerMounts (opts : client.CreateOptsForContainer) : List mount.Mount :=
  opts.Mount.getD []

/-- A small engine for the concrete runs: its state counts the calls it has
answered, every call succeeds, the system info reports user namespaces and the
cgroup driver "none", creation answers with the ID "c1", start fails when
`startFails`, and the listing and inspect answers are fixed. -/
def demoClient (startFails : Bool) : Client Nat :=
  { Info := fun s =>
      (({ CgroupDriver := "none", CgroupVersion := "2", Driver := "overlay2",
          SecurityOptions := ["name=seccomp,profile=default", "name=userns"],
          MemoryLimit := true, PidsLimit := true, CPUShares := true, NCPU := 8 }, none), s + 1)
    ContainerCreate := fun _ _ _ _ s => (({ ID := "c1" }, none), s + 1)
    ContainerStart := fun _ s =>
      (if startFails then some { msg := "start failed" } else none, s + 1)
    ContainerInspect := fun _ s =>
      (({ ContainerJSONBase := some { Name := "/master1", State := some { Status := "running" } }
          Config := some
            { Image := "base:latest", Tty := true, Labels := [("role", "master")],
              Hostname := "master1", AttachStdin := false, AttachStdout := false,
              AttachStderr := false }
          NetworkSettings := some
            { Networks := [("bridge", some { NetworkID := "n0", IPAddress := "172.17.0.2" })] } },
        none), s + 1)
    ContainerList := fun s =>
      (([ { ID := "a", NetworkSettings := some
              { Networks := [("bridge", some { NetworkID := "n0", IPAddress := "10.0.0.5" })] } },
          { ID := "b", NetworkSettings := some
              { Networks := [("net0", some { NetworkID := "n1", IPAddress := "10.0.0.5" })] } },
          { ID := "c", NetworkSettings := some
              { Networks := [("net0", some { NetworkID := "n1", IPAddress := "10.0.0.5" })] } } ],
        none), s + 1)
    ContainerRemove := fun id _ s =>
      (if id = "c1" then none else some { msg := "No such container" }, s + 1) }

/-- A provider over `demoClient` with two default mounts; network resolution
fails when `netFails` and the image pull fails when `pullFails`. -/
def demoProvider (netFails pullFails startFails : Bool) : Provider Nat :=
  { DockerClient := demoClient startFails
    PrepareNetworkResource := fun _ s =>
      (if netFails then ("", some { msg := "network failed" }) else ("n1", none), s + 1)
    PullImage := fun _ s =>
      (if pullFails then ("", some { msg := "pull failed" }) else ("", none), s + 1)
    DefaultMounts :=
      [ { MountType := "tmpfs", Source := "", Target := "/tmp", ReadOnly := false },
        { MountType := "tmpfs", Source := "", Target := "/run", ReadOnly := false } ] }

/-- A provider whose listing decodes a null endpoint: the container "x" has the
key "net0" with a nil pointer stored under it, and the container "y" after it is
attached to "net0" with the address "10.0.0.5". -/
def nullEndpointProvider : Provider Nat :=
  { demoProvider false false false with
    DockerClient :=
      { demoClient false with
        ContainerList := fun s =>
          (([ { ID := "x", NetworkSettings := some { Networks := [("net0", none)] } },
              { ID := "y", NetworkSettings := some
                  { Networks := [("net0", some { NetworkID := "n1", IPAddress := "10.0.0.5" })] } } ],
            none), s + 1) } }

/-- A creation request with one mount. -/
def demoOpts : client.CreateOptsForContainer :=
  { ImageName := "base:latest", NetworkName := "net0", ContainerName := "master1",
    ContainerHostName := "master1", ContainerLabel := [("role", "master")],
    Mount := some [ { MountType := "bind", Source := "/data", Target := "/data",
                      ReadOnly := true } ] }

/-- The world before any call. -/
def demoWorld : World Nat := { st := 0, calls := [] }

/-! ## Lemmas on the call log and the loops -/

theorem foldl_userns (l : List String) (acc : String) :
    l.foldl (fun usernsMode opt => if opt = "name=userns" then "host" else usernsMode) acc
      = if "name=userns" ∈ l then "host" else acc := by
  induction l generalizing acc with
  | nil => simp
  | cons x xs ih =>
    rw [List.foldl_cons, ih]
    by_cases hx : x = "name=userns"
    · simp [hx]
    · have hx2 : ¬ ("name=userns" = x) := fun h => hx h.symm
      simp [hx, hx2]

theorem scanSecurityOptions_eq (l : List String) :
    scanSecurityOptions l = if "name=userns" ∈ l then "host" else "" :=
  foldl_userns l ""

theorem attachedAt_nilFreeAt (ip networkName : String) (item : types.Container)
    (h : attachedAt ip networkName item) : nilFreeAt networkName item := by
  unfold attachedAt addressOn at h
  unfold nilFreeAt
  cases hs : item.NetworkSettings with
  | none => simp [hs] at h
  | some settings =>
    intro hnil
    simp [hs, hnil] at h

theorem scanContainers_cons (ip networkName : String) (item : types.Container)
    (rest : List types.Container) (hfree : nilFreeAt networkName item) :
    scanContainers ip networkName (item :: rest)
      = if attachedAt ip networkName item then Outcome.returned (some item.ID)
        else scanContainers ip networkName rest := by
  unfold nilFreeAt at hfree
  rw [scanContainers]
  cases hs : item.NetworkSettings with
  | none => simp [hs] at hfree
  | some settings =>
    simp only [hs] at hfree
    cases hl : settings.Networks.lookup networkName with
    | none => simp [attachedAt, addressOn, hs, hl]
    | some net =>
      cases net with
      | none => exact absurd hl hfree
      | some endpoint =>
        by_cases hip : ip = endpoint.IPAddress
        · simp [attachedAt, addressOn, hs, hl, hip]
        · have hip2 : ¬ (endpoint.IPAddress = ip) := fun e => hip e.symm
          simp [attachedAt, addressOn, hs, hl, hip, hip2]

theorem scanContainers_none (ip networkName : String) (resp : List types.Container)
    (h : ∀ d ∈ resp, nilFreeAt networkName d ∧ ¬ attachedAt ip networkName d) :
    scanContainers ip networkName resp = Outcome.returned none := by
  induction resp with
  | nil => rfl
  | cons x xs ih =>
    have hx := h x (List.mem_cons_self x xs)
    rw [scanContainers_cons ip networkName x xs hx.1, if_neg hx.2]
    exact ih fun d hd => h d (List.mem_cons_of_mem x hd)

theorem scanContainers_first (ip networkName : String) (pre : List types.Container)
    (item : types.Container) (post : List types.Container)
    (hpre : ∀ d ∈ pre, nilFreeAt networkName d ∧ ¬ attachedAt ip networkName d)
    (hitem : attachedAt ip networkName item) :
    scanContainers ip networkName (pre ++ item :: post) = Outcome.returned (some item.ID) := by
  induction pre with
  | nil =>
    rw [List.nil_append,
      scanContainers_cons ip networkName item post (attachedAt_nilFreeAt ip networkName item hitem),
      if_pos hitem]
  | cons x xs ih =>
    have hx := hpre x (List.mem_cons_self x xs)
    rw [List.cons_append, scanContainers_cons ip networkName x _ hx.1, if_neg hx.2]
    exact ih fun d hd => hpre d (List.mem_cons_of_mem x hd)

/-- The loop stops with a panic at the first container that has no
`NetworkSettings` or a nil endpoint stored under `networkName`, when no
container before it matches. -/
theorem scanContainers_nil_pointer (ip networkName : String) (pre : List types.Container)
    (item : types.Container) (post : List types.Container)
    (hpre : ∀ d ∈ pre, nilFreeAt networkName d ∧ ¬ attachedAt ip networkName d)
    (hitem : ¬ nilFreeAt networkName item) :
    scanContainers ip networkName (pre ++ item :: post) = Outcome.panicked := by
  induction pre with
  | nil =>
    unfold nilFreeAt at hitem
    rw [List.nil_append, scanContainers]
    cases hs : item.NetworkSettings with
    | none => rfl
    | some settings =>
      simp only [hs, ne_eq, not_not] at hitem
      simp [hitem]
  | cons x xs ih =>
    have hx := hpre x (List.mem_cons_self x xs)
    rw [List.cons_append, scanContainers_cons ip networkName x _ hx.1, if_neg hx.2]
    exact ih fun d hd => hpre d (List.mem_cons_of_mem x hd)

/-! ## GetServerInfo -/

/-- Claim C1. When the system-info call succeeds and reports the cgroup driver
"none", `GetServerInfo` returns a `DockerInfo` and no error, and in it
`MemoryLimit`, `PidsLimit` and `CPUShares` are the zero value `false`, whatever
the engine reported for them. -/
theorem GetServerInfo_none_driver_limits_zero {σ : Type} (p : Provider σ) (w : World σ)
    (sysInfo : types.Info) (s : σ)
    (hinfo : p.DockerClient.Info w.st = ((sysInfo, none), s))
    (hdriver : sysInfo.CgroupDriver = "none") :
    ∃ dInfo : client.DockerInfo,
      (GetServerInfo p w).1 = (some dInfo, none) ∧
      dInfo.MemoryLimit = false ∧ dInfo.PidsLimit = false ∧ dInfo.CPUShares = false := by
  simp [GetServerInfo, hinfo, hdriver, CgroupNoneDriver]

theorem GetServerInfo_none_driver_limits_zero_witness :
    ∃ dInfo : client.DockerInfo,
      (GetServerInfo (demoProvider false false false) demoWorld).1 = (some dInfo, none) ∧
      dInfo.MemoryLimit = false ∧ dInfo.PidsLimit = false ∧ dInfo.CPUShares = false :=
  GetServerInfo_none_driver_limits_zero (demoProvider false false false) demoWorld
    { CgroupDriver := "none", CgroupVersion := "2", Driver := "overlay2",
      SecurityOptions := ["name=seccomp,profile=default", "name=userns"],
      MemoryLimit := true, PidsLimit := true, CPUShares := true, NCPU := 8 } 1 rfl rfl

/-- Claim C10. When the system-info call succeeds, `GetServerInfo` returns a
`DockerInfo` and no error whose cgroup driver, cgroup version, storage driver
and security options are the reported ones; when the driver is not "none" the
memory limit, pids limit, CPU shares and CPU count are the reported ones too;
when the driver is "none" these four are the zero values, so the CPU count is 0
whatever the host reports. -/
theorem GetServerInfo_copies {σ : Type} (p : Provider σ) (w : World σ)
    (sysInfo : types.Info) (s : σ)
    (hinfo : p.DockerClient.Info w.st = ((sysInfo, none), s)) :
    ∃ dInfo : client.DockerInfo,
      (GetServerInfo p w).1 = (some dInfo, none) ∧
      dInfo.CgroupDriver = sysInfo.CgroupDriver ∧
      dInfo.CgroupVersion = sysInfo.CgroupVersion ∧
      dInfo.StorageDriver = sysInfo.Driver ∧
      dInfo.SecurityOptions = sysInfo.SecurityOptions ∧
      (sysInfo.CgroupDriver ≠ "none" →
        dInfo.MemoryLimit = sysInfo.MemoryLimit ∧ dInfo.PidsLimit = sysInfo.PidsLimit ∧
        dInfo.CPUShares = sysInfo.CPUShares ∧ dInfo.CPUNumber = sysInfo.NCPU) ∧
      (sysInfo.CgroupDriver = "none" →
        dInfo.MemoryLimit = false ∧ dInfo.PidsLimit = false ∧
        dInfo.CPUShares = false ∧ dInfo.CPUNumber = 0) := by
  by_cases hdriver : sysInfo.CgroupDriver = "none"
  · simp [GetServerInfo, hinfo, hdriver, CgroupNoneDriver]
  · simp [GetServerInfo, hinfo, hdriver, CgroupNoneDriver]

theorem GetServerInfo_copies_witness :
    ∃ dInfo : client.DockerInfo,
      (GetServerInfo (demoProvider false false false) demoWorld).1 = (some dInfo, none) ∧
      dInfo.CgroupDriver = "none" ∧ dInfo.CgroupVersion = "2" ∧
      dInfo.StorageDriver = "overlay2" ∧
      dInfo.SecurityOptions = ["name=seccomp,profile=default", "name=userns"] ∧
      dInfo.CPUNumber = 0 := by
  obtain ⟨dInfo, h1, h2, h3, h4, h5, _, h7⟩ :=
    GetServerInfo_copies (demoProvider false false false) demoWorld
      { CgroupDriver := "none", CgroupVersion := "2", Driver := "overlay2",
        SecurityOptions := ["name=seccomp,profile=default", "name=userns"],
        MemoryLimit := true, PidsLimit := true, CPUShares := true, NCPU := 8 } 1 rfl
  exact ⟨dInfo, h1, h2, h3, h4, h5, (h7 rfl).2.2.2⟩

/-! ## GetContainerIDByIP -/

/-- Claim C2, amended. When the listing call succeeds with the containers
`resp`, and every container of `resp` before the first one attached to
`networkName` with the address `ip` has its `NetworkSettings` set and no nil
endpoint stored under `networkName`, `GetContainerIDByIP` returns, with no
error, the ID of that first container; when no container of `resp` is attached
to `networkName` with the address `ip` and every container of `resp` has its
`NetworkSettings` set and no nil endpoint stored under `networkName`, it returns
the empty identifier and no error. It makes the one listing call. -/
theorem GetContainerIDByIP_first_match {σ : Type} (p : Provider σ) (ip networkName : String)
    (w : World σ) (resp : List types.Container) (s : σ)
    (hlist : p.DockerClient.ContainerList w.st = ((resp, none), s)) :
    (∀ (pre : List types.Container) (item : types.Container) (post : List types.Container),
        resp = pre ++ item :: post →
        (∀ d ∈ pre, nilFreeAt networkName d ∧ ¬ attachedAt ip networkName d) →
        attachedAt ip networkName item →
        (GetContainerIDByIP p ip networkName w).1 = Outcome.returned (item.ID, none)) ∧
    ((∀ d ∈ resp, nilFreeAt networkName d ∧ ¬ attachedAt ip networkName d) →
        (GetContainerIDByIP p ip networkName w).1 = Outcome.returned ("", none)) ∧
    issued w (GetContainerIDByIP p ip networkName w).2 = [Call.ContainerList] := by
  refine ⟨?_, ?_, ?_⟩
  · intro pre item post hresp hpre hitem
    have hscan := scanContainers_first ip networkName pre item post hpre hitem
    rw [← hresp] at hscan
    simp [GetContainerIDByIP, hlist, hscan]
  · intro hnone
    have hscan := scanContainers_none ip networkName resp hnone
    simp [GetContainerIDByIP, hlist, hscan]
  · rcases hscan : scanContainers ip networkName resp with (_ | id) | _ <;>
      simp [GetContainerIDByIP, hlist, hscan, issued, World.step]

theorem GetContainerIDByIP_first_match_witness :
    (GetContainerIDByIP (demoProvider false false false) "10.0.0.5" "net0" demoWorld).1
        = Outcome.returned ("b", none) ∧
    (GetContainerIDByIP (demoProvider false false false) "10.0.0.9" "net0" demoWorld).1
        = Outcome.returned ("", none) :=
  ⟨(GetContainerIDByIP_first_match (demoProvider false false false) "10.0.0.5" "net0" demoWorld
      _ 1 rfl).1
      [ { ID := "a", NetworkSettings := some
            { Networks := [("bridge", some { NetworkID := "n0", IPAddress := "10.0.0.5" })] } } ]
      { ID := "b", NetworkSettings := some
          { Networks := [("net0", some { NetworkID := "n1", IPAddress := "10.0.0.5" })] } }
      [ { ID := "c", NetworkSettings := some
            { Networks := [("net0", some { NetworkID := "n1", IPAddress := "10.0.0.5" })] } } ]
      rfl (by decide) (by decide),
   (GetContainerIDByIP_first_match (demoProvider false false false) "10.0.0.9" "net0" demoWorld
      _ 1 rfl).2.1 (by decide)⟩

/-- Claim C2 as stated fails on the code. The listing call succeeds with the
containers "x" and "y"; "y" is the first, and only, container attached to "net0"
with the address "10.0.0.5", and "x" has a nil endpoint stored under "net0".
`GetContainerIDByIP` stops with a run-time panic at "x" and does not return the
ID "y" with no error. -/
theorem GetContainerIDByIP_nil_endpoint_panics :
    nullEndpointProvider.DockerClient.ContainerList demoWorld.st
      = (([ { ID := "x", NetworkSettings := some { Networks := [("net0", none)] } },
            { ID := "y", NetworkSettings := some
                { Networks := [("net0", some { NetworkID := "n1", IPAddress := "10.0.0.5" })] } } ],
          none), 1) ∧
    ¬ attachedAt "10.0.0.5" "net0"
        { ID := "x", NetworkSettings := some { Networks := [("net0", none)] } } ∧
    attachedAt "10.0.0.5" "net0"
        { ID := "y", NetworkSettings := some
            { Networks := [("net0", some { NetworkID := "n1", IPAddress := "10.0.0.5" })] } } ∧
    (GetContainerIDByIP nullEndpointProvider "10.0.0.5" "net0" demoWorld).1
      = Outcome.panicked ∧
    (GetContainerIDByIP nullEndpointProvider "10.0.0.5" "net0" demoWorld).1
      ≠ Outcome.returned ("y", none) := by
  refine ⟨rfl, by decide, by decide, by decide, by decide⟩

/-! ## GetContainerInfo -/

/-- When the inspect call succeeds with every pointer of the answer set and the
container is attached to `networkName`, `GetContainerInfo` returns the record of
the inspected name, address on that network, hostname, labels and status, and no
error. -/
theorem GetContainerInfo_attached {σ : Type} (p : Provider σ) (containerID networkName : String)
    (w : World σ) (resp : types.ContainerJSON) (s : σ) (base : types.ContainerJSONBase)
    (config : container.Config) (state : types.ContainerState)
    (settings : types.NetworkSettings) (endpoint : network.EndpointSettings)
    (hinspect : p.DockerClient.ContainerInspect containerID w.st = ((resp, none), s))
    (hbase : resp.ContainerJSONBase = some base) (hconfig : resp.Config = some config)
    (hstate : base.State = some state) (hsettings : resp.NetworkSettings = some settings)
    (hattached : settings.Networks.lookup networkName = some (some endpoint)) :
    (GetContainerInfo p containerID networkName w).1 =
      Outcome.returned
        (some { ContainerName := base.Name, ContainerIP := endpoint.IPAddress,
                ContainerHostName := config.Hostname,
                ContainerLabel := config.Labels, Status := state.Status }, none) := by
  simp [GetContainerInfo, inspectRecord, hinspect, types.Networks.index, hbase, hconfig,
    hstate, hsettings, hattached]

/-- When the inspect call succeeds and the container is not attached to
`networkName`, `GetContainerInfo` does not return: it stops with the nil
pointer dereference. -/
theorem GetContainerInfo_unattached {σ : Type} (p : Provider σ) (containerID networkName : String)
    (w : World σ) (resp : types.ContainerJSON) (s : σ) (settings : types.NetworkSettings)
    (hinspect : p.DockerClient.ContainerInspect containerID w.st = ((resp, none), s))
    (hsettings : resp.NetworkSettings = some settings)
    (hunattached : settings.Networks.lookup networkName = none) :
    (GetContainerInfo p containerID networkName w).1 = Outcome.panicked := by
  cases hb : resp.ContainerJSONBase <;>
    simp [GetContainerInfo, inspectRecord, hinspect, types.Networks.index, hb, hsettings,
      hunattached]

/-- Claim C3 fails on the code. The container "c1" is inspected with success and
is attached to "bridge" only; asked for its record on "net0", `GetContainerInfo`
stops with a run-time panic and returns neither a record with an empty address
nor an error. -/
theorem GetContainerInfo_unattached_panics :
    (GetContainerInfo (demoProvider false false false) "c1" "net0" demoWorld).1
      = Outcome.panicked ∧
    ∀ r : client.Container,
      (GetContainerInfo (demoProvider false false false) "c1" "net0" demoWorld).1
        ≠ Outcome.returned (some r, none) := by
  have h : (GetContainerInfo (demoProvider false false false) "c1" "net0" demoWorld).1
      = Outcome.panicked := by decide
  refine ⟨h, ?_⟩
  intro r hr
  rw [h] at hr
  cases hr

/-! ## RmContainer -/

/-- Claim C9. `RmContainer` makes exactly one call, the removal of
`containerID` with `RemoveVolumes` and `Force` both true, and returns what that
call returns: an error exactly when the call returns one, and then that error.
So when the engine answers the removal of an identifier it does not know with
an error, `RmContainer` returns that error. -/
theorem RmContainer_forwards {σ : Type} (p : Provider σ) (containerID : String) (w : World σ) :
    issued w (RmContainer p containerID w).2
        = [Call.ContainerRemove containerID { RemoveVolumes := true, Force := true }] ∧
    (RmContainer p containerID w).1
        = (p.DockerClient.ContainerRemove containerID
            { RemoveVolumes := true, Force := true } w.st).1 ∧
    (RmContainer p containerID w).2.st
        = (p.DockerClient.ContainerRemove containerID
            { RemoveVolumes := true, Force := true } w.st).2 ∧
    (∀ e : GoError,
        (p.DockerClient.ContainerRemove containerID
            { RemoveVolumes := true, Force := true } w.st).1 = some e →
        (RmContainer p containerID w).1 = some e) := by
  rcases hrm : p.DockerClient.ContainerRemove containerID
      { RemoveVolumes := true, Force := true } w.st with ⟨err, s⟩
  cases err <;> simp [RmContainer, hrm, issued, World.step]

theorem RmContainer_forwards_witness :
    (RmContainer (demoProvider false false false) "unknown" demoWorld).1
      = some { msg := "No such container" } :=
  (RmContainer_forwards (demoProvider false false false) "unknown" demoWorld).2.2.2
    { msg := "No such container" } (by decide)

/-! ## RunContainer: the paths through the function -/

theorem getUserNsMode_eq {σ : Type} (p : Provider σ) (w : World σ) (sysInfo : types.Info)
    (ierr : Option GoError) (s : σ) (hinfo : p.DockerClient.Info w.st = ((sysInfo, ierr), s)) :
    getUserNsMode p w =
      ((if ierr = none ∧ "name=userns" ∈ sysInfo.SecurityOptions then "host" else "", ierr),
        w.step Call.Info s) := by
  cases ierr <;> simp [getUserNsMode, hinfo, scanSecurityOptions_eq]

theorem RunContainer_network_error {σ : Type} (p : Provider σ)
    (opts : client.CreateOptsForContainer) (w : World σ) (networkID : String) (e : GoError)
    (s1 : σ)
    (hnet : p.PrepareNetworkResource opts.NetworkName w.st = ((networkID, some e), s1)) :
    RunContainer p opts w =
      (("", some e),
        { st := s1, calls := w.calls ++ [Call.PrepareNetworkResource opts.NetworkName] }) := by
  simp [RunContainer, hnet, World.step]

theorem RunContainer_pull_error {σ : Type} (p : Provider σ)
    (opts : client.CreateOptsForContainer) (w : World σ) (networkID image : String)
    (e : GoError) (s1 s2 : σ)
    (hnet : p.PrepareNetworkResource opts.NetworkName w.st = ((networkID, none), s1))
    (hpull : p.PullImage opts.ImageName s1 = ((image, some e), s2)) :
    RunContainer p opts w =
      (("", some e),
        { st := s2, calls := w.calls ++ [Call.PrepareNetworkResource opts.NetworkName,
            Call.PullImage opts.ImageName] }) := by
  simp [RunContainer, hnet, hpull, World.step]

/-- The `ContainerCreate` call of `RunContainer` when the system-info call
answered `(sysInfo, ierr)` and network resolution answered `networkID`. -/
theorem RunContainer_after_pull {σ : Type} (p : Provider σ)
    (opts : client.CreateOptsForContainer) (w : World σ) (networkID image : String)
    (sysInfo : types.Info) (ierr : Option GoError)
    (resp : container.ContainerCreateCreatedBody) (cerr serr : Option GoError)
    (s1 s2 s3 s4 s5 : σ) (hostConfig : container.HostConfig)
    (hhost : hostConfig = runHostConfig
      (if ierr = none ∧ "name=userns" ∈ sysInfo.SecurityOptions then "host" else "")
      (setContainerMount p opts))
    (hnet : p.PrepareNetworkResource opts.NetworkName w.st = ((networkID, none), s1))
    (hpull : p.PullImage opts.ImageName s1 = ((image, none), s2))
    (hinfo : p.DockerClient.Info s2 = ((sysInfo, ierr), s3))
    (hcreate : p.DockerClient.ContainerCreate (runConfig opts) hostConfig
      (runNetworkingConfig opts networkID) opts.ContainerName s3 = ((resp, cerr), s4))
    (hstart : p.DockerClient.ContainerStart resp.ID s4 = (serr, s5)) :
    RunContainer p opts w =
      match cerr with
      | some e =>
        (("", some e),
          { st := s4, calls := w.calls ++ [Call.PrepareNetworkResource opts.NetworkName,
              Call.PullImage opts.ImageName, Call.Info,
              Call.ContainerCreate (runConfig opts) hostConfig
                (runNetworkingConfig opts networkID) opts.ContainerName] })
      | none =>
        ((match serr with
          | some e => ("", some e)
          | none => (resp.ID, none)),
          { st := s5, calls := w.calls ++ [Call.PrepareNetworkResource opts.NetworkName,
              Call.PullImage opts.ImageName, Call.Info,
              Call.ContainerCreate (runConfig opts) hostConfig
                (runNetworkingConfig opts networkID) opts.ContainerName,
              Call.ContainerStart resp.ID] }) := by
  subst hhost
  have hmode := getUserNsMode_eq p
    { st := s2, calls := w.calls ++ [Call.PrepareNetworkResource opts.NetworkName,
        Call.PullImage opts.ImageName] } sysInfo ierr s3 hinfo
  cases cerr <;> cases serr <;>
    simp [RunContainer, hnet, hpull, hmode, hcreate, hstart, World.step]

/-- The `ContainerCreate` calls of a run of `RunContainer`: none, or the one
call built from the request, a user-namespace mode and a network identifier. -/
theorem createCalls_RunContainer {σ : Type} (p : Provider σ)
    (opts : client.CreateOptsForContainer) (w : World σ) :
    createCalls (issued w (RunContainer p opts w).2) = [] ∨
    ∃ mod networkID, createCalls (issued w (RunContainer p opts w).2) =
      [(runConfig opts, runHostConfig mod (setContainerMount p opts),
        runNetworkingConfig opts networkID, opts.ContainerName)] := by
  rcases hnet : p.PrepareNetworkResource opts.NetworkName w.st with ⟨⟨networkID, nerr⟩, s1⟩
  cases nerr with
  | some e =>
    left
    rw [RunContainer_network_error p opts w networkID e s1 hnet]
    simp [issued, createCalls]
  | none =>
    rcases hpull : p.PullImage opts.ImageName s1 with ⟨⟨image, perr⟩, s2⟩
    cases perr with
    | some e =>
      left
      rw [RunContainer_pull_error p opts w networkID image e s1 s2 hnet hpull]
      simp [issued, createCalls]
    | none =>
      rcases hinfo : p.DockerClient.Info s2 with ⟨⟨sysInfo, ierr⟩, s3⟩
      rcases hcreate : p.DockerClient.ContainerCreate (runConfig opts)
        (runHostConfig
          (if ierr = none ∧ "name=userns" ∈ sysInfo.SecurityOptions then "host" else "")
          (setContainerMount p opts))
        (runNetworkingConfig opts networkID) opts.ContainerName s3 with ⟨⟨resp, cerr⟩, s4⟩
      rcases hstart : p.DockerClient.ContainerStart resp.ID s4 with ⟨serr, s5⟩
      right
      refine ⟨if ierr = none ∧ "name=userns" ∈ sysInfo.SecurityOptions then "host" else "",
        networkID, ?_⟩
      rw [RunContainer_after_pull p opts w networkID image sysInfo ierr resp cerr serr
        s1 s2 s3 s4 s5 _ rfl hnet hpull hinfo hcreate hstart]
      cases cerr <;> simp [issued, createCalls]

/-! ## RunContainer: the claims -/

/-- Claim C4. When network resolution fails, `RunContainer` returns the empty
identifier with that error and its only call is the network resolution: no
image pull, no create, no start. When network resolution succeeds and the image
pull fails, it returns the empty identifier with the pull error and its only
calls are the network resolution and the pull: no create, no start. -/
theorem RunContainer_aborts_before_create {σ : Type} (p : Provider σ)
    (opts : client.CreateOptsForContainer) (w : World σ) :
    (∀ (networkID : String) (e : GoError) (s1 : σ),
        p.PrepareNetworkResource opts.NetworkName w.st = ((networkID, some e), s1) →
        (RunContainer p opts w).1 = ("", some e) ∧
        issued w (RunContainer p opts w).2 = [Call.PrepareNetworkResource opts.NetworkName] ∧
        (∀ c ∈ issued w (RunContainer p opts w).2,
          c.isPull = false ∧ c.isCreate = false ∧ c.isStart = false)) ∧
    (∀ (networkID image : String) (e : GoError) (s1 s2 : σ),
        p.PrepareNetworkResource opts.NetworkName w.st = ((networkID, none), s1) →
        p.PullImage opts.ImageName s1 = ((image, some e), s2) →
        (RunContainer p opts w).1 = ("", some e) ∧
        issued w (RunContainer p opts w).2
          = [Call.PrepareNetworkResource opts.NetworkName, Call.PullImage opts.ImageName] ∧
        (∀ c ∈ issued w (RunContainer p opts w).2,
          c.isCreate = false ∧ c.isStart = false)) := by
  constructor
  · intro networkID e s1 hnet
    rw [RunContainer_network_error p opts w networkID e s1 hnet]
    simp [issued, Call.isPull, Call.isCreate, Call.isStart]
  · intro networkID image e s1 s2 hnet hpull
    rw [RunContainer_pull_error p opts w networkID image e s1 s2 hnet hpull]
    simp [issued, Call.isPull, Call.isCreate, Call.isStart]

theorem RunContainer_aborts_before_create_witness :
    ((RunContainer (demoProvider true false false) demoOpts demoWorld).1
        = ("", some { msg := "network failed" }) ∧
      issued demoWorld (RunContainer (demoProvider true false false) demoOpts demoWorld).2
        = [Call.PrepareNetworkResource "net0"]) ∧
    ((RunContainer (demoProvider false true false) demoOpts demoWorld).1
        = ("", some { msg := "pull failed" }) ∧
      issued demoWorld (RunContainer (demoProvider false true false) demoOpts demoWorld).2
        = [Call.PrepareNetworkResource "net0", Call.PullImage "base:latest"]) := by
  have h1 := (RunContainer_aborts_before_create (demoProvider true false false) demoOpts
    demoWorld).1 "" { msg := "network failed" } 1 rfl
  have h2 := (RunContainer_aborts_before_create (demoProvider false true false) demoOpts
    demoWorld).2 "n1" "" { msg := "pull failed" } 1 2 rfl rfl
  exact ⟨⟨h1.1, h1.2.1⟩, ⟨h2.1, h2.2.1⟩⟩

/-- Claim C5. Every `ContainerCreate` call that `RunContainer` makes, for every
request, provider and engine state, carries a host configuration with the
security options "seccomp=unconfined" and "apparmor=unconfined" in this order
and no other, `Privileged` true, cgroup namespace mode "host", `Init` pointing
to false, and the restart policy "on-failure" with at most 1 retry. -/
theorem RunContainer_fixed_security_posture {σ : Type} (p : Provider σ)
    (opts : client.CreateOptsForContainer) (w : World σ)
    (config : container.Config) (hostConfig : container.HostConfig)
    (networkingConfig : network.NetworkingConfig) (containerName : String)
    (hcall : (config, hostConfig, networkingConfig, containerName)
      ∈ createCalls (issued w (RunContainer p opts w).2)) :
    hostConfig.SecurityOpt = ["seccomp=unconfined", "apparmor=unconfined"] ∧
    hostConfig.Privileged = true ∧
    hostConfig.CgroupnsMode = "host" ∧
    hostConfig.Init = some false ∧
    hostConfig.RestartPolicy = { Name := "on-failure", MaximumRetryCount := 1 } := by
  rcases createCalls_RunContainer p opts w with h | ⟨mod, networkID, h⟩
  · rw [h] at hcall
    cases hcall
  · rw [h, List.mem_singleton] at hcall
    have hhost : hostConfig = runHostConfig mod (setContainerMount p opts) :=
      congrArg (fun t => t.2.1) hcall
    subst hhost
    simp [runHostConfig]

theorem RunContainer_fixed_security_posture_witness :
    (runConfig demoOpts,
      runHostConfig "host" (setContainerMount (demoProvider false false false) demoOpts),
      runNetworkingConfig demoOpts "n1", "master1")
      ∈ createCalls (issued demoWorld
          (RunContainer (demoProvider false false false) demoOpts demoWorld).2) ∧
    (runHostConfig "host" (setContainerMount (demoProvider false false false) demoOpts)).SecurityOpt
        = ["seccomp=unconfined", "apparmor=unconfined"] ∧
    (runHostConfig "host" (setContainerMount (demoProvider false false false) demoOpts)).Privileged
        = true := by
  have hcall : (runConfig demoOpts,
      runHostConfig "host" (setContainerMount (demoProvider false false false) demoOpts),
      runNetworkingConfig demoOpts "n1", "master1")
      ∈ createCalls (issued demoWorld
          (RunContainer (demoProvider false false false) demoOpts demoWorld).2) := by decide
  have h := RunContainer_fixed_security_posture (demoProvider false false false) demoOpts
    demoWorld _ _ _ _ hcall
  exact ⟨hcall, h.1, h.2.1⟩

/-- Claim C6. When network resolution and the image pull succeed, `RunContainer`
makes the system-info call and then exactly one `ContainerCreate` call, whether
the system-info call fails or not; the user-namespace mode of that call is
"host" when the system-info call succeeded and its security options contain
"name=userns", and the empty mode otherwise. -/
theorem RunContainer_userns_mode {σ : Type} (p : Provider σ)
    (opts : client.CreateOptsForContainer) (w : World σ) (networkID image : String)
    (sysInfo : types.Info) (ierr : Option GoError) (s1 s2 s3 : σ)
    (hnet : p.PrepareNetworkResource opts.NetworkName w.st = ((networkID, none), s1))
    (hpull : p.PullImage opts.ImageName s1 = ((image, none), s2))
    (hinfo : p.DockerClient.Info s2 = ((sysInfo, ierr), s3)) :
    ∃ hostConfig : container.HostConfig,
      createCalls (issued w (RunContainer p opts w).2)
        = [(runConfig opts, hostConfig, runNetworkingConfig opts networkID,
            opts.ContainerName)] ∧
      (issued w (RunContainer p opts w).2).take 4
        = [Call.PrepareNetworkResource opts.NetworkName, Call.PullImage opts.ImageName,
            Call.Info,
            Call.ContainerCreate (runConfig opts) hostConfig
              (runNetworkingConfig opts networkID) opts.ContainerName] ∧
      hostConfig.UsernsMode
        = (if ierr = none ∧ "name=userns" ∈ sysInfo.SecurityOptions then "host" else "") := by
  rcases hcreate : p.DockerClient.ContainerCreate (runConfig opts)
    (runHostConfig
      (if ierr = none ∧ "name=userns" ∈ sysInfo.SecurityOptions then "host" else "")
      (setContainerMount p opts))
    (runNetworkingConfig opts networkID) opts.ContainerName s3 with ⟨⟨resp, cerr⟩, s4⟩
  rcases hstart : p.DockerClient.ContainerStart resp.ID s4 with ⟨serr, s5⟩
  refine ⟨runHostConfig
      (if ierr = none ∧ "name=userns" ∈ sysInfo.SecurityOptions then "host" else "")
      (setContainerMount p opts), ?_, ?_, ?_⟩
  · rw [RunContainer_after_pull p opts w networkID image sysInfo ierr resp cerr serr
      s1 s2 s3 s4 s5 _ rfl hnet hpull hinfo hcreate hstart]
    cases cerr <;> simp [issued, createCalls]
  · rw [RunContainer_after_pull p opts w networkID image sysInfo ierr resp cerr serr
      s1 s2 s3 s4 s5 _ rfl hnet hpull hinfo hcreate hstart]
    cases cerr <;> simp [issued]
  · simp [runHostConfig]

theorem RunContainer_userns_mode_witness :
    ∃ hostConfig : container.HostConfig,
      createCalls (issued demoWorld
          (RunContainer (demoProvider false false false) demoOpts demoWorld).2)
        = [(runConfig demoOpts, hostConfig, runNetworkingConfig demoOpts "n1", "master1")] ∧
      hostConfig.UsernsMode = "host" := by
  obtain ⟨hostConfig, h1, _, h3⟩ :=
    RunContainer_userns_mode (demoProvider false false false) demoOpts demoWorld "n1" ""
      { CgroupDriver := "none", CgroupVersion := "2", Driver := "overlay2",
        SecurityOptions := ["name=seccomp,profile=default", "name=userns"],
        MemoryLimit := true, PidsLimit := true, CPUShares := true, NCPU := 8 }
      none 1 2 3 rfl rfl rfl
  exact ⟨hostConfig, h1, h3.trans (by decide)⟩

/-- Claim C7. The mount list of `setContainerMount` is the default mounts
followed by the mounts of the request in their order: its length is the sum of
the two lengths, its first part is the default mounts, it is the default mounts
when the request has none, and it is the mount list of every `ContainerCreate`
call that `RunContainer` makes. -/
theorem setContainerMount_appends {σ : Type} (p : Provider σ)
    (opts : client.CreateOptsForContainer) (w : World σ) :
    setContainerMount p opts = p.DefaultMounts ++ callerMounts opts ∧
    (setContainerMount p opts).length = p.DefaultMounts.length + (callerMounts opts).length ∧
    (setContainerMount p opts).take p.DefaultMounts.length = p.DefaultMounts ∧
    (setContainerMount p opts).drop p.DefaultMounts.length = callerMounts opts ∧
    (callerMounts opts = [] → setContainerMount p opts = p.DefaultMounts) ∧
    (∀ (config : container.Config) (hostConfig : container.HostConfig)
        (networkingConfig : network.NetworkingConfig) (containerName : String),
        (config, hostConfig, networkingConfig, containerName)
          ∈ createCalls (issued w (RunContainer p opts w).2) →
        hostConfig.Mounts = p.DefaultMounts ++ callerMounts opts) := by
  have happ : setContainerMount p opts = p.DefaultMounts ++ callerMounts opts := by
    unfold setContainerMount callerMounts
    cases opts.Mount <;> simp
  refine ⟨happ, ?_, ?_, ?_, ?_, ?_⟩
  · rw [happ, List.length_append]
  · rw [happ, List.take_left]
  · rw [happ, List.drop_left]
  · intro hnone
    rw [happ, hnone, List.append_nil]
  · intro config hostConfig networkingConfig containerName hcall
    rcases createCalls_RunContainer p opts w with h | ⟨mod, networkID, h⟩
    · rw [h] at hcall
      cases hcall
    · rw [h, List.mem_singleton] at hcall
      have hhost : hostConfig = runHostConfig mod (setContainerMount p opts) :=
        congrArg (fun t => t.2.1) hcall
      rw [hhost, ← happ]
      rfl

theorem setContainerMount_appends_witness :
    (runHostConfig "host" (setContainerMount (demoProvider false false false) demoOpts)).Mounts
        = [ { MountType := "tmpfs", Source := "", Target := "/tmp", ReadOnly := false },
            { MountType := "tmpfs", Source := "", Target := "/run", ReadOnly := false },
            { MountType := "bind", Source := "/data", Target := "/data", ReadOnly := true } ] ∧
    setContainerMount (demoProvider false false false) { demoOpts with Mount := none }
        = (demoProvider false false false).DefaultMounts := by
  have h := (setContainerMount_appends (demoProvider false false false) demoOpts
    demoWorld).2.2.2.2.2 (runConfig demoOpts)
    (runHostConfig "host" (setContainerMount (demoProvider false false false) demoOpts))
    (runNetworkingConfig demoOpts "n1") "master1" (by decide)
  have h2 := (setContainerMount_appends (demoProvider false false false)
    { demoOpts with Mount := none } demoWorld).2.2.2.2.1 rfl
  exact ⟨h, h2⟩

/-- Claim C8. When network resolution, the image pull and the create call
succeed and the start call then fails with `e`, `RunContainer` returns the empty
identifier with `e`, and its calls are the network resolution, the pull, the
system info, the create and the start: it makes no remove call. -/
theorem RunContainer_start_error_no_cleanup {σ : Type} (p : Provider σ)
    (opts : client.CreateOptsForContainer) (w : World σ) (networkID image : String)
    (sysInfo : types.Info) (ierr : Option GoError)
    (resp : container.ContainerCreateCreatedBody) (e : GoError) (s1 s2 s3 s4 s5 : σ)
    (hnet : p.PrepareNetworkResource opts.NetworkName w.st = ((networkID, none), s1))
    (hpull : p.PullImage opts.ImageName s1 = ((image, none), s2))
    (hinfo : p.DockerClient.Info s2 = ((sysInfo, ierr), s3))
    (hcreate : p.DockerClient.ContainerCreate (runConfig opts)
      (runHostConfig
        (if ierr = none ∧ "name=userns" ∈ sysInfo.SecurityOptions then "host" else "")
        (setContainerMount p opts))
      (runNetworkingConfig opts networkID) opts.ContainerName s3 = ((resp, none), s4))
    (hstart : p.DockerClient.ContainerStart resp.ID s4 = (some e, s5)) :
    (RunContainer p opts w).1 = ("", some e) ∧
    issued w (RunContainer p opts w).2
      = [Call.PrepareNetworkResource opts.NetworkName, Call.PullImage opts.ImageName,
          Call.Info,
          Call.ContainerCreate (runConfig opts)
            (runHostConfig
              (if ierr = none ∧ "name=userns" ∈ sysInfo.SecurityOptions then "host" else "")
              (setContainerMount p opts))
            (runNetworkingConfig opts networkID) opts.ContainerName,
          Call.ContainerStart resp.ID] ∧
    (∀ c ∈ issued w (RunContainer p opts w).2, c.isRemove = false) := by
  rw [RunContainer_after_pull p opts w networkID image sysInfo ierr resp none (some e)
    s1 s2 s3 s4 s5 _ rfl hnet hpull hinfo hcreate hstart]
  simp [issued, Call.isRemove]

theorem RunContainer_start_error_no_cleanup_witness :
    (RunContainer (demoProvider false false true) demoOpts demoWorld).1
        = ("", some { msg := "start failed" }) ∧
    (∀ c ∈ issued demoWorld (RunContainer (demoProvider false false true) demoOpts demoWorld).2,
        c.isRemove = false) := by
  have h := RunContainer_start_error_no_cleanup (demoProvider false false true) demoOpts
    demoWorld "n1" ""
    { CgroupDriver := "none", CgroupVersion := "2", Driver := "overlay2",
      SecurityOptions := ["name=seccomp,profile=default", "name=userns"],
      MemoryLimit := true, PidsLimit := true, CPUShares := true, NCPU := 8 }
    none { ID := "c1" } { msg := "start failed" } 1 2 3 4 5 rfl rfl rfl rfl rfl
  exact ⟨h.1, h.2.2⟩

end docker

end Sealer
